import Mathlib

/-!
Verification of the snapshot-acquisition routine of `src/covid19.py`.

The script keeps its data in `st.session_state`; we model that session state
as an explicit record threaded through `fetch_latest_data`.  The outcome of
the network request / HTML extraction is modelled by `FetchOutcome`: either
the transport fails, `raise_for_status` throws on an HTTP error status, or a
list of text tokens is selected from the page (the `.covid-case strong`
nodes).  Token-to-integer conversion (`int(num.text.replace('.','').replace(',',''))`)
is modelled by `parseToken`.  The body of the `try:` block is `tryBody`,
returning `Except` to model a Python exception; `fetch_latest_data` wraps it
with the `except Exception` handler that installs the fallback constants.
-/

namespace Covid19

/-- Backup data used if the primary data retrieval fails (line 26). -/
def fallback_cases : List Nat := [6811444, 6640216, 161853, 0]

/-- Fallback global total (line 27). -/
def fallback_global : Nat := 676681574

/-- Fallback suspect count (line 28). -/
def fallback_suspect : Nat := 1080

/-- Fallback specimen count (line 29). -/
def fallback_specimen : Nat := 13678

/-- Timestamps are modelled as naturals; `datetime.datetime.min` is 0. -/
def datetimeMin : Nat := 0

/-- The fields of `st.session_state` that the acquisition routine touches
(lines 34-45 initialise them, `fetch_latest_data` updates them). -/
structure SessionState where
  cases : List Nat
  global_cases : Nat
  suspect : Nat
  specimen : Nat
  api_status : String
  last_update : Nat
deriving DecidableEq, Repr

/-- Initial session state (lines 34-45). -/
def initialState : SessionState :=
  { cases := fallback_cases
    global_cases := fallback_global
    suspect := fallback_suspect
    specimen := fallback_specimen
    api_status := "✅ Live Data"
    last_update := datetimeMin }

/-- Outcome of the HTTP GET plus HTML extraction: transport failure or
timeout (`requests.get` throws), an error status (`raise_for_status`
throws), or a successfully parsed page from which `soup.select` produced a
list of text tokens. -/
inductive FetchOutcome where
  | netError : FetchOutcome
  | httpError : Nat → FetchOutcome
  | ok : List String → FetchOutcome
deriving DecidableEq, Repr

/-- Remove thousands separators: `.replace('.', '').replace(',', '')`. -/
def stripSeps (s : String) : String :=
  String.mk (s.data.filter (fun c => c ≠ '.' ∧ c ≠ ','))

/-- Value of a digit string, most significant digit first. -/
def digitsVal (cs : List Char) : Nat :=
  cs.foldl (fun n c => n * 10 + (c.toNat - 48)) 0

/-- Model of `int(...)` applied to a separator-stripped token: succeeds on a
nonempty digit string, raises `ValueError` (None) otherwise. -/
def parseToken (s : String) : Option Nat :=
  let cs := (stripSeps s).data
  if cs ≠ [] ∧ cs.all (fun c => c.isDigit) then some (digitsVal cs) else none

/-- The list comprehension of line 54: converts every token, and the whole
conversion throws if any single token does. -/
def parseNumbers (tokens : List String) : Option (List Nat) :=
  tokens.mapM parseToken

/-- The successful branch of lines 56-62: requires `len(numbers) >= 4` and
writes the session fields from the extracted numbers. -/
def successUpdate (numbers : List Nat) (now : Nat) (st : SessionState) : SessionState :=
  { st with
    cases := numbers.take 4
    global_cases := numbers.getD 0 0
    suspect := if 4 < numbers.length then numbers.getD 4 0 else fallback_suspect
    specimen := if 5 < numbers.length then numbers.getD 5 0 else fallback_specimen
    api_status := "✅ Latest Data from Ministry of Health"
    last_update := now }

/-- The `except` branch of lines 65-70: the four data fields get the
fallback constants; `api_status` and `last_update` are not written. -/
def fallbackUpdate (st : SessionState) : SessionState :=
  { st with
    cases := fallback_cases
    global_cases := fallback_global
    suspect := fallback_suspect
    specimen := fallback_specimen }

/-- The body of the `try:` block (lines 50-64).  An `Except.error` models a
thrown Python exception (network error, HTTP error, `ValueError` from
`int(...)`, or the explicit `raise ValueError` on incomplete data). -/
def tryBody (o : FetchOutcome) (now : Nat) (st : SessionState) :
    Except String SessionState :=
  match o with
  | FetchOutcome.netError => Except.error "requests.exceptions.ConnectionError"
  | FetchOutcome.httpError _ => Except.error "requests.exceptions.HTTPError"
  | FetchOutcome.ok tokens =>
    match parseNumbers tokens with
    | none => Except.error "ValueError: invalid literal for int"
    | some numbers =>
      if 4 ≤ numbers.length then Except.ok (successUpdate numbers now st)
      else Except.error "Data retrieved is incomplete."

/-- `fetch_latest_data` (lines 49-70): run the `try:` body, and on any
exception fall back to the backup data. -/
def fetch_latest_data (o : FetchOutcome) (now : Nat) (st : SessionState) :
    SessionState :=
  match tryBody o now st with
  | Except.ok s => s
  | Except.error _ => fallbackUpdate st

/-- Whether a given outcome makes the acquisition fail (take the `except`
branch), independent of the session state and clock. -/
def acquisitionFails (o : FetchOutcome) : Bool :=
  match o with
  | FetchOutcome.netError => true
  | FetchOutcome.httpError _ => true
  | FetchOutcome.ok tokens =>
    match parseNumbers tokens with
    | none => true
    | some numbers => decide (numbers.length < 4)

/-- Provenance of the snapshot, in the spec's vocabulary. -/
inductive Source where
  | LIVE : Source
  | FALLBACK : Source
deriving DecidableEq, Repr

/-- The spec's `Snapshot` record, read off the post-call session state
(`retrieved_at` excluded: it lives in `SessionState.last_update`). -/
structure Snapshot where
  confirmed : Nat
  recovered : Nat
  deaths : Nat
  active : Nat
  global_total : Nat
  suspect_count : Nat
  specimen_count : Nat
  source : Source
deriving DecidableEq, Repr

/-- The snapshot produced by one acquisition: the data fields of the
session state after `fetch_latest_data`, tagged LIVE or FALLBACK by the
branch taken. -/
def snapshotOf (o : FetchOutcome) (now : Nat) (st : SessionState) : Snapshot :=
  let s := fetch_latest_data o now st
  { confirmed := s.cases.getD 0 0
    recovered := s.cases.getD 1 0
    deaths := s.cases.getD 2 0
    active := s.cases.getD 3 0
    global_total := s.global_cases
    suspect_count := s.suspect
    specimen_count := s.specimen
    source := if acquisitionFails o then Source.FALLBACK else Source.LIVE }

/-- The fallback snapshot actually produced by the code: note `active = 0`
(the fourth entry of `fallback_cases`). -/
def fallbackSnapshot : Snapshot :=
  { confirmed := 6811444
    recovered := 6640216
    deaths := 161853
    active := 0
    global_total := 676681574
    suspect_count := 1080
    specimen_count := 13678
    source := Source.FALLBACK }

/-- The failure conditions enumerated by claim C1: transport failure, HTTP
error status, a token that fails integer conversion, or fewer than 3
extracted numbers. -/
def claimedFailure (o : FetchOutcome) : Prop :=
  o = FetchOutcome.netError ∨
  (∃ s, o = FetchOutcome.httpError s) ∨
  (∃ ts, o = FetchOutcome.ok ts ∧ parseNumbers ts = none) ∨
  (∃ ts ns, o = FetchOutcome.ok ts ∧ parseNumbers ts = some ns ∧ ns.length < 3)

/-- Sidebar rates (lines 184-186), with Python's float arithmetic modelled
exactly over the rationals. -/
def recovery_rate (cases : List Nat) : ℚ :=
  if 0 < cases.getD 0 0 then
    ((cases.getD 1 0 : ℚ) / (cases.getD 0 0 : ℚ)) * 100
  else 0

/-- Death rate (line 185). -/
def death_rate (cases : List Nat) : ℚ :=
  if 0 < cases.getD 0 0 then
    ((cases.getD 2 0 : ℚ) / (cases.getD 0 0 : ℚ)) * 100
  else 0

/-- Active-case rate (line 186). -/
def active_rate (cases : List Nat) : ℚ :=
  if 0 < cases.getD 0 0 then
    ((cases.getD 3 0 : ℚ) / (cases.getD 0 0 : ℚ)) * 100
  else 0

/-! ## Helper lemmas -/

/-- On any failing outcome the `try:` body throws. -/
lemma tryBody_error_of_fails (o : FetchOutcome) (now : Nat) (st : SessionState)
    (h : acquisitionFails o = true) :
    ∃ e, tryBody o now st = Except.error e := by
  cases o with
  | netError => exact ⟨_, rfl⟩
  | httpError s => exact ⟨_, rfl⟩
  | ok tokens =>
    simp only [tryBody]
    cases hp : parseNumbers tokens with
    | none => exact ⟨_, rfl⟩
    | some numbers =>
      simp only [acquisitionFails, hp, decide_eq_true_eq] at h
      have h4 : ¬ 4 ≤ numbers.length := by omega
      simp [h4]

/-- On any failing outcome, `fetch_latest_data` applies the fallback update. -/
lemma fetch_fail (o : FetchOutcome) (now : Nat) (st : SessionState)
    (h : acquisitionFails o = true) :
    fetch_latest_data o now st = fallbackUpdate st := by
  obtain ⟨e, he⟩ := tryBody_error_of_fails o now st h
  simp [fetch_latest_data, he]

/-- On a succeeding outcome, `fetch_latest_data` applies the success update. -/
lemma fetch_succ (ts : List String) (ns : List Nat) (now : Nat) (st : SessionState)
    (hp : parseNumbers ts = some ns) (h4 : 4 ≤ ns.length) :
    fetch_latest_data (FetchOutcome.ok ts) now st = successUpdate ns now st := by
  simp [fetch_latest_data, tryBody, hp, h4]

/-- A succeeding outcome does not satisfy `acquisitionFails`. -/
lemma not_fails_of_succ (ts : List String) (ns : List Nat)
    (hp : parseNumbers ts = some ns) (h4 : 4 ≤ ns.length) :
    acquisitionFails (FetchOutcome.ok ts) = false := by
  simp [acquisitionFails, hp]
  omega

/-- `getD` through `take`: index below the cut reads the original list. -/
lemma getD_take (l : List Nat) (i n : Nat) (h : i < n) :
    (l.take n).getD i 0 = l.getD i 0 := by
  induction l generalizing i n with
  | nil => simp
  | cons a l ih =>
    cases n with
    | zero => omega
    | succ n =>
      cases i with
      | zero => simp
      | succ i => simpa using ih i n (by omega)

/-- A non-failing outcome is a token list whose numbers parsed and number at
least 4. -/
lemma succ_shape_of_not_fails (o : FetchOutcome) (h : acquisitionFails o = false) :
    ∃ ts ns, o = FetchOutcome.ok ts ∧ parseNumbers ts = some ns ∧ 4 ≤ ns.length := by
  cases o with
  | netError => simp [acquisitionFails] at h
  | httpError s => simp [acquisitionFails] at h
  | ok ts =>
    cases hp : parseNumbers ts with
    | none => simp [acquisitionFails, hp] at h
    | some ns =>
      refine ⟨ts, ns, rfl, hp, ?_⟩
      simp [acquisitionFails, hp] at h
      omega

/-- The snapshot on a failing outcome is the fallback snapshot, whatever the
prior session state. -/
lemma snapshotOf_fail (o : FetchOutcome) (now : Nat) (st : SessionState)
    (h : acquisitionFails o = true) :
    snapshotOf o now st = fallbackSnapshot := by
  simp [snapshotOf, fetch_fail o now st h, fallbackUpdate, fallback_cases,
    fallback_global, fallback_suspect, fallback_specimen, fallbackSnapshot, h]

/-- The claimed failure conditions all make the acquisition fail. -/
lemma fails_of_claimedFailure (o : FetchOutcome) (h : claimedFailure o) :
    acquisitionFails o = true := by
  rcases h with h | ⟨s, h⟩ | ⟨ts, h, hp⟩ | ⟨ts, ns, h, hp, h3⟩
  · subst h; rfl
  · subst h; rfl
  · subst h; simp [acquisitionFails, hp]
  · subst h; simp [acquisitionFails, hp]; omega

/-! ## Claims -/

/-- C1 (as stated, refuted): on a network failure the returned snapshot has
`active = 0`, not `active = 9375` as the claim's fallback record says. -/
theorem C1_counterexample :
    (snapshotOf FetchOutcome.netError 5 initialState).source = Source.FALLBACK ∧
    (snapshotOf FetchOutcome.netError 5 initialState).active = 0 ∧
    (snapshotOf FetchOutcome.netError 5 initialState).active ≠ 9375 := by
  refine ⟨rfl, rfl, ?_⟩
  decide

/-- C1 (amended): whenever the network call fails, the HTTP status is an
error, a token fails integer conversion, or fewer than 3 numbers are
extracted, the acquisition returns exactly the fixed constant fallback
snapshot `{confirmed=6811444; recovered=6640216; deaths=161853; active=0;
global_total=676681574; suspect_count=1080; specimen_count=13678;
source=FALLBACK}`, never mixed with live data from the prior state. -/
theorem C1_fallback_exact (o : FetchOutcome) (now : Nat) (st : SessionState)
    (h : claimedFailure o) :
    snapshotOf o now st = fallbackSnapshot :=
  snapshotOf_fail o now st (fails_of_claimedFailure o h)

/-- C1 witness: a concrete network failure from a concrete state. -/
theorem C1_fallback_exact_witness :
    snapshotOf FetchOutcome.netError 5 initialState = fallbackSnapshot :=
  C1_fallback_exact FetchOutcome.netError 5 initialState (Or.inl rfl)

/-- C2 (as stated, refuted): with exactly 3 extracted numbers the code does
not accept the data — `len(numbers) >= 4` fails, `ValueError` is raised and
the fallback is installed, so the snapshot is FALLBACK and its `confirmed`
is not the first extracted number. -/
theorem C2_counterexample :
    (snapshotOf (FetchOutcome.ok ["10", "3", "2"]) 7 initialState).source =
      Source.FALLBACK ∧
    (snapshotOf (FetchOutcome.ok ["10", "3", "2"]) 7 initialState).confirmed ≠ 10 := by
  decide

/-- C2 (amended): for every extraction that yields exactly 3 numeric fields,
validation fails (the code requires at least 4 extracted numbers), and
`acquire()` returns the fixed fallback snapshot with `source = FALLBACK`;
no LIVE snapshot and no `active` derivation happens. -/
theorem C2_three_fields_fallback (ts : List String) (ns : List Nat) (now : Nat)
    (st : SessionState) (hp : parseNumbers ts = some ns) (h3 : ns.length = 3) :
    snapshotOf (FetchOutcome.ok ts) now st = fallbackSnapshot := by
  apply snapshotOf_fail
  simp [acquisitionFails, hp, h3]

/-- C2 witness: three concrete tokens. -/
theorem C2_three_fields_witness :
    snapshotOf (FetchOutcome.ok ["10", "3", "2"]) 7 initialState = fallbackSnapshot :=
  C2_three_fields_fallback ["10", "3", "2"] [10, 3, 2] 7 initialState (by decide) rfl

/-- C3: for every successful extraction with at least 4 numeric fields, the
returned LIVE snapshot's `active` is exactly the 4th extracted number
(`cases = numbers[:4]`), with no derivation from the other fields. -/
theorem C3_active_is_fourth (ts : List String) (ns : List Nat) (now : Nat)
    (st : SessionState) (hp : parseNumbers ts = some ns) (h4 : 4 ≤ ns.length) :
    (snapshotOf (FetchOutcome.ok ts) now st).active = ns.getD 3 0 ∧
    (snapshotOf (FetchOutcome.ok ts) now st).source = Source.LIVE := by
  have hf := not_fails_of_succ ts ns hp h4
  simp [snapshotOf, fetch_succ ts ns now st hp h4, successUpdate, hf,
    getD_take ns 3 4 (by omega)]

/-- C3 witness: four concrete tokens whose 4th is 99. -/
theorem C3_active_is_fourth_witness :
    (snapshotOf (FetchOutcome.ok ["10", "3", "2", "99"]) 7 initialState).active =
      ([10, 3, 2, 99] : List Nat).getD 3 0 ∧
    (snapshotOf (FetchOutcome.ok ["10", "3", "2", "99"]) 7 initialState).source =
      Source.LIVE :=
  C3_active_is_fourth ["10", "3", "2", "99"] [10, 3, 2, 99] 7 initialState
    (by decide) (by decide)

/-- C4: on every successful LIVE acquisition, `global_total` is the 1st
extracted number (`numbers[0]`) and therefore equals the snapshot's
`confirmed` field — the documented aliasing. -/
theorem C4_global_aliases_confirmed (ts : List String) (ns : List Nat) (now : Nat)
    (st : SessionState) (hp : parseNumbers ts = some ns) (h4 : 4 ≤ ns.length) :
    (snapshotOf (FetchOutcome.ok ts) now st).global_total = ns.getD 0 0 ∧
    (snapshotOf (FetchOutcome.ok ts) now st).global_total =
      (snapshotOf (FetchOutcome.ok ts) now st).confirmed := by
  simp [snapshotOf, fetch_succ ts ns now st hp h4, successUpdate,
    getD_take ns 0 4 (by omega)]

/-- C4 witness: four concrete tokens. -/
theorem C4_global_aliases_confirmed_witness :
    (snapshotOf (FetchOutcome.ok ["10", "3", "2", "99"]) 8 initialState).global_total =
      ([10, 3, 2, 99] : List Nat).getD 0 0 ∧
    (snapshotOf (FetchOutcome.ok ["10", "3", "2", "99"]) 8 initialState).global_total =
      (snapshotOf (FetchOutcome.ok ["10", "3", "2", "99"]) 8 initialState).confirmed :=
  C4_global_aliases_confirmed ["10", "3", "2", "99"] [10, 3, 2, 99] 8 initialState
    (by decide) (by decide)

/-- C5: `fetch_latest_data` is total — for every outcome of the network
call, parsing and validation, it returns a session state: either the
`try:` body succeeded and its result is returned, or the body threw some
exception and the handler installed the fallback; nothing propagates. -/
theorem C5_total_absorption (o : FetchOutcome) (now : Nat) (st : SessionState) :
    (∃ s, tryBody o now st = Except.ok s ∧ fetch_latest_data o now st = s) ∨
    (∃ e, tryBody o now st = Except.error e ∧
      fetch_latest_data o now st = fallbackUpdate st) := by
  cases h : tryBody o now st with
  | ok s => exact Or.inl ⟨s, rfl, by simp [fetch_latest_data, h]⟩
  | error e => exact Or.inr ⟨e, rfl, by simp [fetch_latest_data, h]⟩

/-- C6: calling the acquirer twice against an unreachable endpoint yields
two FALLBACK snapshots that are field-for-field equal (`retrieved_at` is
not a `Snapshot` field), regardless of the prior session state; the
untouched `api_status` also agrees across the two calls. -/
theorem C6_idempotent_fallback (now1 now2 : Nat) (st : SessionState) :
    snapshotOf FetchOutcome.netError now1 st =
      snapshotOf FetchOutcome.netError now2
        (fetch_latest_data FetchOutcome.netError now1 st) ∧
    (snapshotOf FetchOutcome.netError now1 st).source = Source.FALLBACK ∧
    (fetch_latest_data FetchOutcome.netError now2
        (fetch_latest_data FetchOutcome.netError now1 st)).api_status =
      (fetch_latest_data FetchOutcome.netError now1 st).api_status := by
  have h1 := snapshotOf_fail FetchOutcome.netError now1 st rfl
  have h2 := snapshotOf_fail FetchOutcome.netError now2
    (fetch_latest_data FetchOutcome.netError now1 st) rfl
  refine ⟨h1.trans h2.symm, by rw [h1]; rfl, ?_⟩
  rw [fetch_fail FetchOutcome.netError now2 _ rfl,
    fetch_fail FetchOutcome.netError now1 st rfl]
  rfl

/-- C7: the `last_update` timestamp is written (to the current time) only
on a successful LIVE acquisition; on every failing outcome it keeps its
prior value, and the initial value is the `datetime.min` "never" marker. -/
theorem C7_last_update_frame (o : FetchOutcome) (now : Nat) (st : SessionState) :
    (fetch_latest_data o now st).last_update =
      (if acquisitionFails o then st.last_update else now) ∧
    initialState.last_update = datetimeMin := by
  refine ⟨?_, rfl⟩
  cases hf : acquisitionFails o with
  | true => rw [fetch_fail o now st hf]; simp [hf, fallbackUpdate]
  | false =>
    obtain ⟨ts, ns, ho, hp, h4⟩ := succ_shape_of_not_fails o hf
    subst ho
    rw [fetch_succ ts ns now st hp h4]
    simp [hf, successUpdate]

/-- C8 (as stated, refuted): with 5 tokens whose 5th is "1.080", the
suspect count is indeed 1080, but `active` is the 4th extracted number
(99 here), not `confirmed - (recovered + deaths)` (which is 5 here). -/
theorem C8_counterexample :
    (snapshotOf (FetchOutcome.ok ["10", "3", "2", "99", "1.080"]) 7
        initialState).suspect_count = 1080 ∧
    (snapshotOf (FetchOutcome.ok ["10", "3", "2", "99", "1.080"]) 7
        initialState).active = 99 ∧
    (snapshotOf (FetchOutcome.ok ["10", "3", "2", "99", "1.080"]) 7
        initialState).active ≠
      (snapshotOf (FetchOutcome.ok ["10", "3", "2", "99", "1.080"]) 7
          initialState).confirmed -
        ((snapshotOf (FetchOutcome.ok ["10", "3", "2", "99", "1.080"]) 7
            initialState).recovered +
          (snapshotOf (FetchOutcome.ok ["10", "3", "2", "99", "1.080"]) 7
              initialState).deaths) := by
  decide

/-- C8 (amended): for every extraction yielding exactly 5 numeric tokens
with the 5th parsing to 1080, the acquirer returns a LIVE snapshot with
`suspect_count = 1080` and `active` equal to the 4th extracted token (the
code never derives `active` from the first three). -/
theorem C8_five_tokens (ts : List String) (ns : List Nat) (now : Nat)
    (st : SessionState) (hp : parseNumbers ts = some ns) (h5 : ns.length = 5)
    (hs : ns.getD 4 0 = 1080) :
    (snapshotOf (FetchOutcome.ok ts) now st).suspect_count = 1080 ∧
    (snapshotOf (FetchOutcome.ok ts) now st).active = ns.getD 3 0 ∧
    (snapshotOf (FetchOutcome.ok ts) now st).source = Source.LIVE := by
  have h4 : 4 ≤ ns.length := by omega
  have hf := not_fails_of_succ ts ns hp h4
  simp only [List.getD] at hs
  have hlt : 4 < ns.length := by omega
  rw [List.get?_eq_getElem?, List.getElem?_eq_getElem hlt] at hs
  simp only [Option.getD_some] at hs
  simp [snapshotOf, fetch_succ ts ns now st hp h4, successUpdate, hf,
    getD_take ns 3 4 (by omega), h5, hs]

/-- C8 witness: five concrete tokens with 5th token "1.080". -/
theorem C8_five_tokens_witness :
    (snapshotOf (FetchOutcome.ok ["10", "3", "2", "99", "1.080"]) 7
        initialState).suspect_count = 1080 ∧
    (snapshotOf (FetchOutcome.ok ["10", "3", "2", "99", "1.080"]) 7
        initialState).active = ([10, 3, 2, 99, 1080] : List Nat).getD 3 0 ∧
    (snapshotOf (FetchOutcome.ok ["10", "3", "2", "99", "1.080"]) 7
        initialState).source = Source.LIVE :=
  C8_five_tokens ["10", "3", "2", "99", "1.080"] [10, 3, 2, 99, 1080] 7
    initialState (by decide) rfl rfl

/-- C9: on every failed acquisition, the fallback branch does not write
`api_status` or `last_update` — both keep their prior values (initially
"✅ Live Data" and `datetime.min`) — while the four data fields are reset
to the fallback constants. -/
theorem C9_status_not_written_on_failure (o : FetchOutcome) (now : Nat)
    (st : SessionState) (h : acquisitionFails o = true) :
    (fetch_latest_data o now st).api_status = st.api_status ∧
    (fetch_latest_data o now st).last_update = st.last_update ∧
    (fetch_latest_data o now st).cases = fallback_cases ∧
    initialState.api_status = "✅ Live Data" := by
  rw [fetch_fail o now st h]
  exact ⟨rfl, rfl, rfl, rfl⟩

/-- C9 witness: a concrete network failure from the initial state. -/
theorem C9_status_witness :
    (fetch_latest_data FetchOutcome.netError 5 initialState).api_status =
      initialState.api_status ∧
    (fetch_latest_data FetchOutcome.netError 5 initialState).last_update =
      initialState.last_update ∧
    (fetch_latest_data FetchOutcome.netError 5 initialState).cases =
      fallback_cases ∧
    initialState.api_status = "✅ Live Data" :=
  C9_status_not_written_on_failure FetchOutcome.netError 5 initialState rfl

/-- C10: the recovery, death and active rates are `(field / confirmed) * 100`
whenever `confirmed > 0` (stated multiplicatively: `rate * confirmed =
field * 100`), and are 0 when `confirmed = 0`; the guarded division never
has a zero divisor. -/
theorem C10_rates_guarded (cs : List Nat) :
    (cs.getD 0 0 = 0 →
      recovery_rate cs = 0 ∧ death_rate cs = 0 ∧ active_rate cs = 0) ∧
    (0 < cs.getD 0 0 →
      recovery_rate cs * (cs.getD 0 0 : ℚ) = (cs.getD 1 0 : ℚ) * 100 ∧
      death_rate cs * (cs.getD 0 0 : ℚ) = (cs.getD 2 0 : ℚ) * 100 ∧
      active_rate cs * (cs.getD 0 0 : ℚ) = (cs.getD 3 0 : ℚ) * 100) := by
  constructor
  · intro h
    have h0 : ¬ 0 < cs.getD 0 0 := by omega
    unfold recovery_rate death_rate active_rate
    rw [if_neg h0, if_neg h0, if_neg h0]
    exact ⟨rfl, rfl, rfl⟩
  · intro h
    have hne : ((cs.getD 0 0 : Nat) : ℚ) ≠ 0 := Nat.cast_ne_zero.mpr (by omega)
    unfold recovery_rate death_rate active_rate
    rw [if_pos h, if_pos h, if_pos h]
    refine ⟨?_, ?_, ?_⟩ <;>
      rw [div_mul_eq_mul_div, div_mul_cancel₀ _ hne]

/-- C10 witness: a concrete positive case list. -/
theorem C10_rates_witness :
    0 < ([4, 2, 1, 1] : List Nat).getD 0 0 ∧
    recovery_rate [4, 2, 1, 1] * (([4, 2, 1, 1] : List Nat).getD 0 0 : ℚ) =
      (([4, 2, 1, 1] : List Nat).getD 1 0 : ℚ) * 100 :=
  ⟨by decide, ((C10_rates_guarded [4, 2, 1, 1]).2 (by decide)).1⟩

end Covid19
